import Mathlib

/-!
Verification development for the map_reduce repository: a shallow embedding of
the `Collection<T>` container (src/spt/natv_collection.hpp), its assertion
discipline (src/spt/assert.cpp), and the Mandelbrot escape-time workload
(src/mandelbrot_cpp/mandel.cpp, mandel.hpp, src/spt/image.hpp).

Modelling conventions:
- The owned buffer `T *_data` is an `Option (List T)`: `some l` is a live
  buffer holding the elements of `l`, `none` is a null pointer (the state the
  move constructor leaves the source in).  The `const std::size_t _size`
  field is kept separately, since it survives a move.
- Every public constructor establishes the §3 invariant that the buffer
  length equals `_size`; theorems about a general collection carry that
  invariant as hypotheses (`c.data = some l`, `l.length = c.size`).
- `assert_true(cond, msg)` throws `assertion_error(msg)` when `cond` is
  false; a throwing call is modelled as `Except.error msg` (for `get`) or as
  returning the untouched collection paired with `some msg` (for `set`).
- `double` arithmetic is modelled exactly over `ℚ`.  At the inputs the
  claims quantify over (0, 2, 4 and their products and sums) every IEEE
  double operation performed by the kernel is exact, so the ℚ model
  coincides with the compiled program there.
-/

/-- Shallow embedding of `Collection<T>`: `data` models the raw owned pointer
`T *_data` (`none` = null / moved-from), `size` models `const std::size_t _size`. -/
structure Collection (T : Type) where
  data : Option (List T)
  size : Nat

/-- Embeds `std::generate(_data, _data + _size, [&]() { return fn(idx++); })`
from the generator constructor: the buffer is filled left to right, the
captured counter `idx` starting at `start` and incrementing once per slot. -/
def genAux {T : Type} (fn : Nat → T) : Nat → Nat → List T
  | 0, _ => []
  | k + 1, start => fn start :: genAux fn k (start + 1)

/-- Embeds the generator constructor `Collection(std::size_t size, FN fn)`
(natv_collection.hpp lines 112-120): allocates a buffer of `size` slots and
fills it with `fn(0), fn(1), ...` in ascending index order. -/
def Collection.ofGen {T : Type} (size : Nat) (fn : Nat → T) : Collection T :=
  Collection.mk (some (genAux fn size 0)) size

/-- Embeds the map constructor `Collection(const Collection<U> &u, FN fn)`
(natv_collection.hpp lines 127-139): a buffer of `u.size()` slots, slot `i`
filled with `fn` of the `i`-th element read off the raw pointer `u.data()`.
When the live-buffer invariant holds this is `List.map` on the buffer.
A null source buffer (moved-from `u`) is undefined behaviour in the source;
the model propagates `none`. -/
def Collection.mapCtor {T U : Type} (u : Collection U) (fn : U → T) : Collection T :=
  Collection.mk (Option.map (List.map fn) u.data) u.size

/-- Embeds the zip constructor `Collection(const Collection<T> &u, const
Collection<T> &v, FN fn)` (natv_collection.hpp lines 148-161): size
`std::min(u.size(), v.size())`, slot `i` filled with `fn(u_buf[i], v_buf[i])`
read off the two raw pointers; only the first `min` elements of either buffer
are touched, which is exactly `List.zipWith` on live buffers. -/
def Collection.zipCtor {T : Type} (u v : Collection T) (fn : T → T → T) : Collection T :=
  Collection.mk
    (match u.data, v.data with
      | some lu, some lv => some (List.zipWith fn lu lv)
      | _, _ => none)
    (min u.size v.size)

/-- Embeds the move constructor `Collection(Collection<T> &&src)`
(natv_collection.hpp lines 167-171): the destination copies `src._data` and
`src._size`.  This is the destination object. -/
def Collection.moveDest {T : Type} (src : Collection T) : Collection T :=
  Collection.mk src.data src.size

/-- Embeds the state the move constructor leaves the source in
(natv_collection.hpp line 170, `src._data = nullptr;`): the pointer is
nulled, while the `const` size field keeps its value. -/
def Collection.movedFrom {T : Type} (src : Collection T) : Collection T :=
  Collection.mk none src.size

/-- Embeds the destructor's release decision (natv_collection.hpp lines
174-181): `delete[] _data` runs exactly when `_data != nullptr`.  Returns 1
when this object frees the buffer, 0 otherwise, so that a sum over objects
counts releases. -/
def Collection.freeCount {T : Type} (c : Collection T) : Nat :=
  match c.data with
  | some _ => 1
  | none => 0

/-- Embeds `get` (natv_collection.hpp lines 208-212):
`assert_true(idx < _size, "get: Index out of bounds")` throws
`assertion_error` (assert.cpp lines 15-19) before the buffer is touched; on
success `_data[idx]` is returned by value.  Reading a null or too-short
buffer is undefined behaviour in the source and mapped to a distinct error. -/
def Collection.get {T : Type} (c : Collection T) (idx : Nat) : Except String T :=
  if idx < c.size then
    match c.data with
    | some l =>
      match l[idx]? with
      | some v => Except.ok v
      | none => Except.error "undefined behavior: read past end of buffer"
    | none => Except.error "undefined behavior: null buffer"
  else Except.error "get: Index out of bounds"

/-- Embeds `set` (natv_collection.hpp lines 219-223): the bounds assertion
throws before any write, so a failing call returns the collection unchanged
together with the assertion message; a successful call overwrites slot `idx`
in place. -/
def Collection.set {T : Type} (c : Collection T) (idx : Nat) (v : T) :
    Collection T × Option String :=
  if idx < c.size then
    match c.data with
    | some l => (Collection.mk (some (l.set idx v)) c.size, none)
    | none => (c, some "undefined behavior: null buffer")
  else (c, some "set: Index out of bounds")

/-- Embeds `const_iterator` (natv_collection.hpp lines 24-90): a reference to
the source collection plus the current index `_idx`. -/
structure ConstIterator (T : Type) where
  src : Collection T
  idx : Nat

/-- Embeds `operator*` (natv_collection.hpp line 49): dereference is defined
as `_src.get(_idx)`, with that function's bounds check and error. -/
def ConstIterator.deref {T : Type} (it : ConstIterator T) : Except String T :=
  it.src.get it.idx

/-- Embeds `cbegin` (natv_collection.hpp line 229): cursor at index 0. -/
def Collection.cbegin {T : Type} (c : Collection T) : ConstIterator T :=
  ConstIterator.mk c 0

/-- Embeds `cend` (natv_collection.hpp line 235): cursor at index `_size`. -/
def Collection.cend {T : Type} (c : Collection T) : ConstIterator T :=
  ConstIterator.mk c c.size

/-- Embeds `reduce` (natv_collection.hpp lines 243-249): `T(0)` when
`_size == 0`, otherwise `std::accumulate(_data + 1, _data + _size, *_data,
fn)`, the left fold of the buffer tail seeded with the first element. -/
def Collection.reduce {T : Type} [Zero T] (c : Collection T) (fn : T → T → T) : T :=
  if c.size = 0 then 0
  else
    match c.data with
    | some (x :: rest) => rest.foldl fn x
    | _ => 0

/-- Embeds `to_vector` (natv_collection.hpp line 202): copies the `_size`
elements starting at `_data` into a sequence. -/
def Collection.to_vector {T : Type} (c : Collection T) : List T :=
  (c.data.getD []).take c.size

/-- Modelled from the spec: `create_image` (mandel.cpp line 66) calls a member
`Collection::map`, which has no definition under src/spt/natv_collection.hpp.
Per spec §4.1, map-derived construction yields a new Collection with the same
size as the source and element `i` equal to `mapper(source.get(i))`; this
coincides with the source's map constructor `Collection(u, fn)`. -/
def Collection.map {T U : Type} (c : Collection T) (fn : T → U) : Collection U :=
  Collection.mapCtor c fn

/-- Embeds `struct Color` (image.hpp lines 22-32): three 8-bit channels; the
source's `unsigned char` values are modelled as `Nat` (the colour mapping
masks each channel with `0xff`, so values stay below 256). -/
structure Color where
  red : Nat
  green : Nat
  blue : Nat
  deriving DecidableEq

/-- Embeds the value-initialised `Color()` used in mandel.cpp line 56: all
three aggregate members are zero-initialised. -/
def Color.valueInit : Color := Color.mk 0 0 0

/-- Embeds the `mandelbrot` class state (mandel.hpp lines 20-31):
`_view_left`, `_view_bottom`, `_view_height`, set by the constructor
(mandel.cpp lines 4-12). -/
structure Mandelbrot where
  view_left : ℚ
  view_bottom : ℚ
  view_height : ℚ

/-- Embeds `mandelbrot::view_top` (mandel.hpp line 71):
`_view_bottom + _view_height`. -/
def Mandelbrot.view_top (m : Mandelbrot) : ℚ := m.view_bottom + m.view_height

/-- Embeds the loop of `mandelbrot::get_count` (mandel.cpp lines 23-30):
`while (i < max_iters && x*x + y*y < 4.0)` with the simultaneous update
`x_temp = x*x - y*y + x0; y = 2*x*y + y0; x = x_temp; ++i;`.  The remaining
budget `fuel = max_iters - i` drives the recursion, so `fuel = 0` is exactly
the exit `i < max_iters` failing. -/
def get_countLoop (x0 y0 x y : ℚ) (i fuel : Nat) : Nat :=
  match fuel with
  | 0 => i
  | f + 1 =>
    if x * x + y * y < 4 then
      get_countLoop x0 y0 (x * x - y * y + x0) (2 * x * y + y0) (i + 1) f
    else i

/-- Embeds `mandelbrot::get_count` (mandel.cpp lines 14-32): accumulators
`x = y = 0.0`, counter `i = 0`, then the loop above; returns `i`. -/
def get_count (x0 y0 : ℚ) (max_iters : Nat) : Nat :=
  get_countLoop x0 y0 0 0 0 max_iters

/-- Embeds the lambda `mandel_fn` of `create_image` (mandel.cpp lines 42-51)
with the captured `scale = view_height() / height`, `top = view_top()` and
`left = view_left()` (lines 38-40) inlined: `row = idx / width`,
`col = idx % width`, `y = top - row*scale`, `x = left + col*scale`, then
`get_count(x, y, max_iters)`. -/
def mandel_fn (m : Mandelbrot) (width height max_iters : Nat) (idx : Nat) : Nat :=
  let scale : ℚ := m.view_height / (height : ℚ)
  let row : Nat := idx / width
  let col : Nat := idx % width
  let y : ℚ := m.view_top - (row : ℚ) * scale
  let x : ℚ := m.view_left + (col : ℚ) * scale
  get_count x y max_iters

/-- Embeds the lambda `color_fn` of `create_image` (mandel.cpp lines 53-63):
`Color()` when `val == max_iters`, otherwise channels
`(val >> 16) & 0xff`, `(val >> 8) & 0xff`, `val & 0xff`. -/
def color_fn (max_iters : Nat) (val : Nat) : Color :=
  if val = max_iters then Color.valueInit
  else Color.mk ((val >>> 16) &&& 0xff) ((val >>> 8) &&& 0xff) (val &&& 0xff)

/-- Embeds `mandelbrot::create_image` (mandel.cpp lines 34-69): generate the
`Collection<unsigned int>` of size `width * height` with `mandel_fn`, map it
through `color_fn`, and materialise the result with `to_vector`.  The
parameters are `unsigned int` (mandel.cpp lines 35-36), so the element count
`width * height` at line 65 is a 32-bit unsigned product and wraps modulo
`2 ^ 32`. -/
def create_image (m : Mandelbrot) (width height max_iters : Nat) : List Color :=
  let data : Collection Nat :=
    Collection.ofGen (width * height % 2 ^ 32) (mandel_fn m width height max_iters)
  let colors : Collection Color := data.map (color_fn max_iters)
  colors.to_vector

/-- The per-pixel sample point as the spec states it (the refinement target
for the coordinate claim): `scale = view_height / height_px`,
`x = left + (idx % width)*scale`, `y = (bottom + view_height) - (idx / width)*scale`. -/
def spec_sample (left bottom view_height : ℚ) (width height_px : Nat) (idx : Nat) : ℚ × ℚ :=
  let scale : ℚ := view_height / (height_px : ℚ)
  (left + ((idx % width : Nat) : ℚ) * scale,
   (bottom + view_height) - ((idx / width : Nat) : ℚ) * scale)

/-- A generator-filled buffer of `k` slots has exactly `k` elements. -/
theorem genAux_length {T : Type} (fn : Nat → T) (k start : Nat) :
    (genAux fn k start).length = k := by
  induction k generalizing start with
  | zero => rfl
  | succ n ih => simp [genAux, ih]

/-- Slot `j` of a generator-filled buffer whose counter started at `start`
holds `fn (start + j)`: the ascending left-to-right fill pairs slot `j` with
the `j`-th counter value. -/
theorem genAux_getElem? {T : Type} (fn : Nat → T) (k start j : Nat) (h : j < k) :
    (genAux fn k start)[j]? = some (fn (start + j)) := by
  induction k generalizing start j with
  | zero => omega
  | succ n ih =>
    cases j with
    | zero => simp [genAux]
    | succ j' =>
      have e := ih (start + 1) j' (by omega)
      have e2 : start + 1 + j' = start + (j' + 1) := by omega
      simp [genAux, e, e2]

/-- With `x0 = y0 = 0` the kernel accumulators stay at the origin, so the
norm test `x*x + y*y < 4` always passes and the loop runs its whole budget. -/
theorem get_countLoop_origin (i fuel : Nat) :
    get_countLoop 0 0 0 0 i fuel = i + fuel := by
  induction fuel generalizing i with
  | zero => rfl
  | succ f ih =>
    have h4 : (0:ℚ) * 0 + 0 * 0 < 4 := by norm_num
    rw [get_countLoop, if_pos h4]
    norm_num
    rw [ih]
    omega

/-- Once the accumulators reach `(2, 0)` the norm test `2*2 + 0*0 < 4`
fails, so the loop exits immediately with the current counter. -/
theorem get_countLoop_two (fuel : Nat) : get_countLoop 2 0 2 0 1 fuel = 1 := by
  cases fuel with
  | zero => rfl
  | succ f =>
    have h4 : ¬ ((2:ℚ) * 2 + 0 * 0 < 4) := by norm_num
    rw [get_countLoop, if_neg h4]

/-- C1: the generator-constructed `Collection(n, f)` has size `n` and
`get(i)` returns `f(i)` for every `i < n`; the buffer is filled by evaluating
`f` at `0 .. n-1` in ascending order (the counter-driven fill embedded by
`genAux`), which is what makes slot `i` hold `f(i)`. -/
theorem ofGen_spec {T : Type} (n : Nat) (f : Nat → T) :
    (Collection.ofGen n f).size = n ∧
    ∀ i, i < n → (Collection.ofGen n f).get i = Except.ok (f i) := by
  refine ⟨rfl, fun i hi => ?_⟩
  simp [Collection.get, Collection.ofGen, hi, genAux_getElem? f n 0 i hi]

theorem ofGen_spec_witness :
    (Collection.ofGen 3 (fun i => i * i)).size = 3 ∧
    (Collection.ofGen 3 (fun i => i * i)).get 1 = Except.ok (1 * 1) :=
  And.intro (ofGen_spec 3 (fun i => i * i)).1
    ((ofGen_spec 3 (fun i => i * i)).2 1 (by decide))

/-- C2: the zip-derived `Collection(a, b, fn)` has size
`min(a.size(), b.size())` and its element `i` is `fn(a.get(i), b.get(i))`
for every `i` below that size; a length mismatch is not an error (the
constructor is total) and only the first `min` elements of either source are
combined. -/
theorem zipCtor_spec {T : Type} (u v : Collection T) (lu lv : List T)
    (hu : u.data = some lu) (hlu : lu.length = u.size)
    (hv : v.data = some lv) (hlv : lv.length = v.size)
    (fn : T → T → T) :
    (u.zipCtor v fn).size = min u.size v.size ∧
    ∀ i, i < min u.size v.size → ∀ a b,
      u.get i = Except.ok a → v.get i = Except.ok b →
      (u.zipCtor v fn).get i = Except.ok (fn a b) := by
  refine ⟨rfl, fun i hi a b ha hb => ?_⟩
  have hiu : i < u.size := lt_of_lt_of_le hi (min_le_left _ _)
  have hiv : i < v.size := lt_of_lt_of_le hi (min_le_right _ _)
  have hlu' : i < lu.length := by omega
  have hlv' : i < lv.length := by omega
  have eu : lu[i]? = some lu[i] := List.getElem?_eq_getElem hlu'
  have ev : lv[i]? = some lv[i] := List.getElem?_eq_getElem hlv'
  simp [Collection.get, hu, hiu, eu] at ha
  simp [Collection.get, hv, hiv, ev] at hb
  subst ha hb
  simp [Collection.get, Collection.zipCtor, hu, hv, hi, List.getElem?_zipWith, eu, ev]

theorem zipCtor_spec_witness :
    ((Collection.ofGen 5 (fun k => k)).zipCtor (Collection.ofGen 3 (fun k => k * 10)) (· + ·)).size =
      min (Collection.ofGen 5 (fun k => k)).size (Collection.ofGen 3 (fun k => k * 10)).size ∧
    ((Collection.ofGen 5 (fun k => k)).zipCtor (Collection.ofGen 3 (fun k => k * 10)) (· + ·)).get 2 =
      Except.ok (2 + 20) :=
  And.intro
    (zipCtor_spec _ _ [0, 1, 2, 3, 4] [0, 10, 20] rfl rfl rfl rfl (· + ·)).1
    ((zipCtor_spec _ _ [0, 1, 2, 3, 4] [0, 10, 20] rfl rfl rfl rfl (· + ·)).2 2 (by decide)
      2 20 rfl rfl)

/-- C3: `reduce(fn)` returns the zero value of `T` on an empty collection
(`T(0)` in the source), and otherwise folds the elements left to right with
`fn`, seeded with the first element `get(0)`. -/
theorem reduce_spec {T : Type} [Zero T] (c : Collection T) (l : List T)
    (h : c.data = some l) (hl : l.length = c.size) (fn : T → T → T) :
    (c.size = 0 → c.reduce fn = 0) ∧
    ∀ x rest, l = x :: rest →
      c.get 0 = Except.ok x ∧ c.reduce fn = rest.foldl fn x := by
  constructor
  · intro h0
    simp [Collection.reduce, h0]
  · intro x rest hxr
    subst hxr
    have hs : c.size ≠ 0 := by
      rw [← hl]
      simp
    constructor
    · have h0 : 0 < c.size := Nat.pos_of_ne_zero hs
      simp [Collection.get, h, h0]
    · simp [Collection.reduce, h, hs]

theorem reduce_spec_witness :
    ((Collection.ofGen 0 (fun k => k + 1)).reduce (· + ·) = 0) ∧
    ((Collection.ofGen 3 (fun k => k + 1)).get 0 = Except.ok 1 ∧
     (Collection.ofGen 3 (fun k => k + 1)).reduce (· + ·) = [2, 3].foldl (· + ·) 1) :=
  And.intro
    ((reduce_spec (Collection.ofGen 0 (fun k => k + 1)) [] rfl rfl (· + ·)).1 rfl)
    ((reduce_spec (Collection.ofGen 3 (fun k => k + 1)) [1, 2, 3] rfl rfl (· + ·)).2 1 [2, 3] rfl)

/-- C4: the escape-time kernel satisfies `get_count 0 0 N = N` for every
budget `N` (the origin never escapes), and `get_count 2 0 N = 1` for every
`N ≥ 1` (the point `(2, 0)` is reported escaped after exactly one step: the
norm test runs after the first simultaneous update, so the count is 1). -/
theorem get_count_spec (N : Nat) :
    get_count 0 0 N = N ∧ (1 ≤ N → get_count 2 0 N = 1) := by
  constructor
  · rw [get_count, get_countLoop_origin]
    omega
  · intro hN
    obtain ⟨f, rfl⟩ : ∃ f, N = f + 1 := ⟨N - 1, by omega⟩
    have h4 : (0:ℚ) * 0 + 0 * 0 < 4 := by norm_num
    rw [get_count, get_countLoop, if_pos h4]
    norm_num
    exact get_countLoop_two f

theorem get_count_spec_witness :
    get_count 0 0 3 = 3 ∧ get_count 2 0 3 = 1 :=
  And.intro (get_count_spec 3).1 ((get_count_spec 3).2 (by decide))

/-- C5: the per-pixel colour mapping returns `Color(0,0,0)` whenever
`val == max_iters` (so with `max_iters == 0` every pixel, whose count is
always `get_count x y 0 = 0`, is black), and otherwise returns
`Color((val >> 16) & 0xff, (val >> 8) & 0xff, val & 0xff)` — in particular
count `0x010203` maps to `Color(1,2,3)` and larger counts wrap per channel
by mask and shift; the default-constructed `Color` is `(0,0,0)`. -/
theorem color_fn_spec (max_iters val : Nat) :
    Color.valueInit = Color.mk 0 0 0 ∧
    (val = max_iters → color_fn max_iters val = Color.mk 0 0 0) ∧
    (val ≠ max_iters →
      color_fn max_iters val =
        Color.mk ((val >>> 16) &&& 0xff) ((val >>> 8) &&& 0xff) (val &&& 0xff)) ∧
    (∀ x y : ℚ, color_fn 0 (get_count x y 0) = Color.mk 0 0 0) ∧
    (0x010203 ≠ max_iters → color_fn max_iters 0x010203 = Color.mk 1 2 3) := by
  refine ⟨rfl, ?_, ?_, ?_, ?_⟩
  · intro he
    simp [color_fn, he, Color.valueInit]
  · intro hne
    simp [color_fn, hne]
  · intro x y
    have h0 : get_count x y 0 = 0 := rfl
    simp [h0, color_fn, Color.valueInit]
  · intro hne
    have hne' : (0x010203 : Nat) ≠ max_iters := hne
    simp [color_fn, hne']
    decide

theorem color_fn_spec_witness :
    color_fn 5 5 = Color.mk 0 0 0 ∧
    color_fn 9 66051 = Color.mk 1 2 3 ∧
    color_fn 0 (get_count (1/2) (1/3) 0) = Color.mk 0 0 0 ∧
    color_fn 9 4 = Color.mk ((4 >>> 16) &&& 0xff) ((4 >>> 8) &&& 0xff) (4 &&& 0xff) :=
  ⟨(color_fn_spec 5 5).2.1 rfl,
   (color_fn_spec 9 66051).2.2.2.2 (by decide),
   (color_fn_spec 0 0).2.2.2.1 (1/2) (1/3),
   (color_fn_spec 9 4).2.2.1 (by decide)⟩

/-- C6: the image field builder samples linear pixel index `idx` at
`x = left + (idx % width)*scale` and
`y = (bottom + view_height) - (idx / width)*scale` with
`scale = view_height / height_px` (row 0 is the top row and `y` decreases
going down), and for `width = height_px = 1` the single pixel is sampled at
exactly `(left, bottom + view_height)`. -/
theorem mandel_fn_spec :
    (∀ (m : Mandelbrot) (width height max_iters idx : Nat),
      0 < width → 0 < height →
      mandel_fn m width height max_iters idx =
        get_count (spec_sample m.view_left m.view_bottom m.view_height width height idx).1
          (spec_sample m.view_left m.view_bottom m.view_height width height idx).2 max_iters) ∧
    (∀ (m : Mandelbrot) (max_iters : Nat),
      spec_sample m.view_left m.view_bottom m.view_height 1 1 0 =
        (m.view_left, m.view_bottom + m.view_height) ∧
      mandel_fn m 1 1 max_iters 0 =
        get_count m.view_left (m.view_bottom + m.view_height) max_iters) := by
  constructor
  · intro m width height max_iters idx _ _
    simp [mandel_fn, spec_sample, Mandelbrot.view_top]
  · intro m max_iters
    constructor
    · simp [spec_sample]
    · simp [mandel_fn, Mandelbrot.view_top]

theorem mandel_fn_spec_witness :
    (0 < 2 ∧ 0 < 2 ∧
      mandel_fn (Mandelbrot.mk (-2) (-1) 2) 2 2 1 3 =
        get_count (spec_sample (-2) (-1) 2 2 2 3).1 (spec_sample (-2) (-1) 2 2 2 3).2 1) ∧
    mandel_fn (Mandelbrot.mk (-2) (-1) 2) 1 1 7 0 = get_count (-2) (-1 + 2) 7 :=
  ⟨⟨by decide, by decide,
    mandel_fn_spec.1 (Mandelbrot.mk (-2) (-1) 2) 2 2 1 3 (by decide) (by decide)⟩,
   (mandel_fn_spec.2 (Mandelbrot.mk (-2) (-1) 2) 7).2⟩

/-- The pixel sequence produced by `create_image` has exactly the element
count handed to the generator constructor: the 32-bit unsigned product
`width * height % 2 ^ 32`. -/
theorem create_image_length (m : Mandelbrot) (width height max_iters : Nat) :
    (create_image m width height max_iters).length = width * height % 2 ^ 32 := by
  simp [create_image, Collection.map, Collection.mapCtor, Collection.ofGen,
    Collection.to_vector, genAux_length]

/-- C7 counterexample: at `width = 2^20`, `height = 2^12` — both valid
`unsigned int` values — the 32-bit product wraps to 0, so `create_image`
returns an empty pixel sequence although `width * height = 2^32 ≠ 0`; the
claimed length `width * height` therefore fails on the code. -/
theorem create_image_spec_counterexample :
    create_image (Mandelbrot.mk 0 0 1) (2 ^ 20) (2 ^ 12) 1 = [] ∧
    (create_image (Mandelbrot.mk 0 0 1) (2 ^ 20) (2 ^ 12) 1).length ≠ 2 ^ 20 * 2 ^ 12 := by
  have h := create_image_length (Mandelbrot.mk 0 0 1) (2 ^ 20) (2 ^ 12) 1
  constructor
  · rw [← List.length_eq_zero, h]
    norm_num
  · rw [h]
    norm_num

/-- C7 (amended): `create_image` returns a pixel sequence whose length
equals the 32-bit unsigned product `width * height % 2 ^ 32` (the `unsigned
int` multiplication at mandel.cpp line 65 wraps, so e.g. `width = 2^20`,
`height = 2^12` yields an empty image); in particular `width = 0` or
`height = 0` yields the empty sequence, not an error (and the generator
body, divisions included, is never invoked, since the counter-driven fill of
zero slots calls nothing). -/
theorem create_image_spec (m : Mandelbrot) (width height max_iters : Nat) :
    (create_image m width height max_iters).length = width * height % 2 ^ 32 ∧
    (width = 0 ∨ height = 0 → create_image m width height max_iters = []) := by
  have hlen := create_image_length m width height max_iters
  refine ⟨hlen, fun h0 => ?_⟩
  have hz : width * height % 2 ^ 32 = 0 := by
    rcases h0 with h | h <;> simp [h]
  rw [← List.length_eq_zero, hlen]
  exact hz

theorem create_image_spec_witness :
    (create_image (Mandelbrot.mk 0 0 1) 0 5 7).length = 0 * 5 % 2 ^ 32 ∧
    create_image (Mandelbrot.mk 0 0 1) 0 5 7 = [] :=
  ⟨(create_image_spec (Mandelbrot.mk 0 0 1) 0 5 7).1,
   (create_image_spec (Mandelbrot.mk 0 0 1) 0 5 7).2 (Or.inl rfl)⟩

/-- C8: `get(i)` and `set(i, v)` fail with an out-of-bounds error exactly
when `i >= size()` (no clamping or wrapping), and a failing `set` leaves the
collection unchanged; in bounds, `get(i)` returns a copy of element `i` and
`set(i, v)` overwrites element `i` in place, leaving size and the other
elements intact. -/
theorem get_set_spec {T : Type} (c : Collection T) (l : List T)
    (h : c.data = some l) (hl : l.length = c.size) (i : Nat) (v : T) :
    (c.size ≤ i →
      c.get i = Except.error "get: Index out of bounds" ∧
      c.set i v = (c, some "set: Index out of bounds")) ∧
    (i < c.size →
      (∀ a, l[i]? = some a → c.get i = Except.ok a) ∧
      (c.set i v).2 = none ∧
      (c.set i v).1.size = c.size ∧
      (c.set i v).1.get i = Except.ok v ∧
      ∀ j, j < c.size → j ≠ i → (c.set i v).1.get j = c.get j) := by
  constructor
  · intro hge
    have hn : ¬ i < c.size := by omega
    exact ⟨by simp [Collection.get, hn], by simp [Collection.set, hn]⟩
  · intro hlt
    have hil : i < l.length := by omega
    refine ⟨fun a ha => by simp [Collection.get, hlt, h, ha], ?_, ?_, ?_, ?_⟩
    · simp [Collection.set, hlt, h]
    · simp [Collection.set, hlt, h]
    · simp [Collection.set, Collection.get, hlt, h, List.getElem?_set, hil]
    · intro j hj hne
      have hne' : ¬ (i = j) := fun e => hne e.symm
      simp [Collection.set, Collection.get, hlt, hj, h, List.getElem?_set, hne']

theorem get_set_spec_witness :
    (Collection.ofGen 3 (fun k => k + 10)).get 5 = Except.error "get: Index out of bounds" ∧
    (Collection.ofGen 3 (fun k => k + 10)).set 5 99 =
      (Collection.ofGen 3 (fun k => k + 10), some "set: Index out of bounds") ∧
    ((Collection.ofGen 3 (fun k => k + 10)).set 1 99).1.get 1 = Except.ok 99 ∧
    ((Collection.ofGen 3 (fun k => k + 10)).set 1 99).1.get 2 =
      (Collection.ofGen 3 (fun k => k + 10)).get 2 :=
  ⟨((get_set_spec (Collection.ofGen 3 (fun k => k + 10)) [10, 11, 12] rfl rfl 5 99).1
      (by decide)).1,
   ((get_set_spec (Collection.ofGen 3 (fun k => k + 10)) [10, 11, 12] rfl rfl 5 99).1
      (by decide)).2,
   ((get_set_spec (Collection.ofGen 3 (fun k => k + 10)) [10, 11, 12] rfl rfl 1 99).2
      (by decide)).2.2.2.1,
   ((get_set_spec (Collection.ofGen 3 (fun k => k + 10)) [10, 11, 12] rfl rfl 1 99).2
      (by decide)).2.2.2.2 2 (by decide) (by decide)⟩

/-- C9: move construction transfers ownership: the destination keeps the
source's size and elements, the moved-from source holds a null buffer and
exposes no element through `get`, and of the two objects exactly one (the
destination) releases the buffer in its destructor. -/
theorem move_spec {T : Type} (c : Collection T) (l : List T)
    (h : c.data = some l) ( _hl : l.length = c.size) :
    (c.moveDest).size = c.size ∧
    (∀ i, i < c.size → (c.moveDest).get i = c.get i) ∧
    (∀ i (v : T), (c.movedFrom).get i ≠ Except.ok v) ∧
    (c.moveDest).freeCount + (c.movedFrom).freeCount = 1 := by
  refine ⟨rfl, fun i _ => rfl, fun i v => ?_, ?_⟩
  · simp only [Collection.get, Collection.movedFrom]
    by_cases hi : i < c.size <;> simp [hi]
  · simp [Collection.freeCount, Collection.moveDest, Collection.movedFrom, h]

theorem move_spec_witness :
    ((Collection.ofGen 2 (fun k => k + 10)).moveDest).size =
      (Collection.ofGen 2 (fun k => k + 10)).size ∧
    ((Collection.ofGen 2 (fun k => k + 10)).moveDest).get 0 =
      (Collection.ofGen 2 (fun k => k + 10)).get 0 ∧
    ((Collection.ofGen 2 (fun k => k + 10)).movedFrom).get 0 ≠ Except.ok 5 ∧
    ((Collection.ofGen 2 (fun k => k + 10)).moveDest).freeCount +
      ((Collection.ofGen 2 (fun k => k + 10)).movedFrom).freeCount = 1 :=
  ⟨(move_spec (Collection.ofGen 2 (fun k => k + 10)) [10, 11] rfl rfl).1,
   (move_spec (Collection.ofGen 2 (fun k => k + 10)) [10, 11] rfl rfl).2.1 0 (by decide),
   (move_spec (Collection.ofGen 2 (fun k => k + 10)) [10, 11] rfl rfl).2.2.1 0 5,
   (move_spec (Collection.ofGen 2 (fun k => k + 10)) [10, 11] rfl rfl).2.2.2⟩

/-- C10: dereferencing an iteration cursor is by definition `get` at the
cursor's index, so a cursor at an index `>= size()` — `cend()` included —
fails with the same out-of-bounds error as `get` without reading the buffer,
while a cursor at `i < size()` yields a copy of element `i`. -/
theorem iterator_deref_spec {T : Type} (c : Collection T) (l : List T)
    (h : c.data = some l) ( _hl : l.length = c.size) (k : Nat) :
    ((ConstIterator.mk c k).deref = c.get k) ∧
    (c.size ≤ k → (ConstIterator.mk c k).deref = Except.error "get: Index out of bounds") ∧
    ((c.cend).deref = Except.error "get: Index out of bounds") ∧
    (k < c.size → ∀ v, l[k]? = some v → (ConstIterator.mk c k).deref = Except.ok v) := by
  refine ⟨rfl, fun hge => ?_, ?_, fun hlt v hv => ?_⟩
  · have hn : ¬ k < c.size := by omega
    simp [ConstIterator.deref, Collection.get, hn]
  · simp [ConstIterator.deref, Collection.cend, Collection.get]
  · simp [ConstIterator.deref, Collection.get, hlt, h, hv]

theorem iterator_deref_spec_witness :
    ((Collection.ofGen 2 (fun k => k + 10)).cend).deref =
      Except.error "get: Index out of bounds" ∧
    (ConstIterator.mk (Collection.ofGen 2 (fun k => k + 10)) 7).deref =
      Except.error "get: Index out of bounds" ∧
    (ConstIterator.mk (Collection.ofGen 2 (fun k => k + 10)) 1).deref = Except.ok 11 :=
  ⟨(iterator_deref_spec (Collection.ofGen 2 (fun k => k + 10)) [10, 11] rfl rfl 7).2.2.1,
   (iterator_deref_spec (Collection.ofGen 2 (fun k => k + 10)) [10, 11] rfl rfl 7).2.1
     (by decide),
   (iterator_deref_spec (Collection.ofGen 2 (fun k => k + 10)) [10, 11] rfl rfl 1).2.2.2
     (by decide) 11 (by decide)⟩
